import Mathlib

/-!
Verification of `gradnet_concrete` against its specification.

The repository has two source files:
* `src/funcs/plot_fun.py` — `scatter_plot` (the spec's **PlotGrid**): lays the
  non-outcome columns of a dataframe onto a grid of scatter plots.
* `src/funcs/training_fun.py` — `train_test` (the spec's **TrainEvaluate**):
  fits a random-forest regressor and prints train/test RMSE.

This file shallowly embeds both functions.  Pure computations (row-count
arithmetic, the row-major cell walk, the per-cell rendering decisions, the
error ordering, the RMSE formula and the printed lines) are translated
directly from the Python source.  Calls into external libraries whose code is
not part of the repository (matplotlib axis objects, sklearn's random-forest
fitting and prediction) are modelled as abstract functions: a rendered cell is
a record of everything `scatter_plot` sets on it, and the sklearn model is an
abstract type with abstract `fit`/`predict` functions, so that every theorem
below holds for any behaviour of the underlying library.
-/

namespace GradnetConcrete

/-- Errors raised by the Python runtime / pandas during `scatter_plot`:
`ValueError` (raised explicitly at plot_fun.py line 19), `KeyError`
(raised by `df.loc[:, c]` when `c` is not a column), and
`ZeroDivisionError` (raised by `n_features % n_col` when `n_col == 0`). -/
inductive PyError where
  | valueError
  | keyError
  | zeroDivisionError
  deriving DecidableEq

/-- A pandas DataFrame of numeric data, modelled as a list of named columns
(in order).  `df.columns.values` is the list of names, `df.shape[1]` the
number of columns. -/
structure DataFrame where
  cols : List (String × List ℚ)
  deriving DecidableEq

/-- `df.columns.values` — the column names in order. -/
def DataFrame.columns (df : DataFrame) : List String :=
  df.cols.map Prod.fst

/-- `df.shape[1]` — the number of columns. -/
def DataFrame.shape1 (df : DataFrame) : Nat :=
  df.cols.length

/-- `df.loc[:, c]` for a single label `c`: the data of the first column named
`c`, or a `KeyError` when no column has that name. -/
def DataFrame.loc (df : DataFrame) (c : String) : Except PyError (List ℚ) :=
  match df.cols.find? (fun p => p.1 == c) with
  | some p => Except.ok p.2
  | none => Except.error PyError.keyError

/-- `df.loc[:, names]` for a list of labels (plot_fun.py line 23): the data of
each named column, positionally. -/
def DataFrame.locList (df : DataFrame) : List String → Except PyError (List (List ℚ))
  | [] => Except.ok []
  | c :: cs => do
    let y ← df.loc c
    let ys ← df.locList cs
    Except.ok (y :: ys)

/-- `feature_names` (plot_fun.py line 22): all column names other than the
outcome column, preserving order. -/
def feature_names (df : DataFrame) (outcome_col : String) : List String :=
  df.columns.filter (fun x => x != outcome_col)

/-- The row-count computation (plot_fun.py lines 25–28):
`n_features // n_col` when `n_col` divides `n_features`, else
`n_features // n_col + 1`.  Python `//` and `%` with a positive divisor are
Euclidean division, hence `Int.ediv` / `Int.emod`; `n_col == 0` raises
`ZeroDivisionError` at the `%`. -/
def rowCountCalc (n_features : Int) (n_col : Nat) : Except PyError Int :=
  if n_col = 0 then Except.error PyError.zeroDivisionError
  else if Int.emod n_features n_col = 0 then Except.ok (Int.ediv n_features n_col)
  else Except.ok (Int.ediv n_features n_col + 1)

/-- Everything `scatter_plot` sets on one rendered grid cell: the scatter-plot
data and label with its alpha (lines 78/83/89/95), the spine visibility
(lines 61–62 etc.), the tick length (line 63 etc.), the x-axis label
(lines 79/84/90/96) and the optional y-axis label (lines 80/86/92/98). -/
structure CellRender where
  scatter_x : List ℚ
  scatter_y : List ℚ
  label : String
  alpha : ℚ
  spine_right_visible : Bool
  spine_top_visible : Bool
  tick_length : Nat
  xlabel : String
  ylabel : Option String
  deriving DecidableEq

/-- One grid cell: either deactivated (`axis('off')`, lines 43/46/49) or
rendered. -/
inductive Cell where
  | off
  | render (r : CellRender)
  deriving DecidableEq

/-- Whether a cell is rendered (active) rather than deactivated. -/
def Cell.isRender : Cell → Bool
  | Cell.off => false
  | Cell.render _ => true

/-- The cell rendered by the `n_row == 1 and n_col == 1` branch
(plot_fun.py lines 60–63 and 77–80): the y-label is always set. -/
def renderCell11 (plt_data outcome_data : List ℚ) (lab outcome_col : String) :
    CellRender :=
  { scatter_x := plt_data, scatter_y := outcome_data, label := lab,
    alpha := 6/10, spine_right_visible := false, spine_top_visible := false,
    tick_length := 5, xlabel := lab, ylabel := some outcome_col }

/-- The cell rendered by the `n_row == 1` branch (plot_fun.py lines 64–67 and
82–86): the y-label is set exactly when the column index `j` is `0`. -/
def renderCellRow1 (j : Nat) (plt_data outcome_data : List ℚ)
    (lab outcome_col : String) : CellRender :=
  { scatter_x := plt_data, scatter_y := outcome_data, label := lab,
    alpha := 6/10, spine_right_visible := false, spine_top_visible := false,
    tick_length := 5, xlabel := lab,
    ylabel := if j = 0 then some outcome_col else none }

/-- The cell rendered by the `n_col == 1` branch (plot_fun.py lines 68–71 and
88–92): the y-label is set exactly when the **row** index `i` is `0`. -/
def renderCellCol1 (i : Nat) (plt_data outcome_data : List ℚ)
    (lab outcome_col : String) : CellRender :=
  { scatter_x := plt_data, scatter_y := outcome_data, label := lab,
    alpha := 6/10, spine_right_visible := false, spine_top_visible := false,
    tick_length := 5, xlabel := lab,
    ylabel := if i = 0 then some outcome_col else none }

/-- The cell rendered by the general two-dimensional branch (plot_fun.py
lines 72–75 and 94–98): the y-label is set exactly when the column index `j`
is `0`. -/
def renderCellGen (j : Nat) (plt_data outcome_data : List ℚ)
    (lab outcome_col : String) : CellRender :=
  { scatter_x := plt_data, scatter_y := outcome_data, label := lab,
    alpha := 6/10, spine_right_visible := false, spine_top_visible := false,
    tick_length := 5, xlabel := lab,
    ylabel := if j = 0 then some outcome_col else none }

/-- The fourfold branch selection on the grid shape, in the source's order of
tests (lines 60/64/68/72 and 77/82/88/94). -/
def renderCell (n_row : Int) (n_col : Nat) (i j : Nat)
    (plt_data outcome_data : List ℚ) (lab outcome_col : String) : CellRender :=
  if n_row = 1 ∧ n_col = 1 then renderCell11 plt_data outcome_data lab outcome_col
  else if n_row = 1 then renderCellRow1 j plt_data outcome_data lab outcome_col
  else if n_col = 1 then renderCellCol1 i plt_data outcome_data lab outcome_col
  else renderCellGen j plt_data outcome_data lab outcome_col

/-- The cell built for grid position `(i, j)` when the running feature index
is `v` (plot_fun.py lines 52–98): scatter data is feature `v`'s column,
labels are `feature_names[v]`. -/
def mkCell (n_row : Int) (n_col : Nat) (df_features : List (List ℚ))
    (outcome_data : List ℚ) (names : List String) (outcome_col : String)
    (i j v : Nat) : Cell :=
  Cell.render (renderCell n_row n_col i j (df_features.getD v [])
    outcome_data (names.getD v "") outcome_col)

/-- The row-major sequence of grid positions walked by the nested loops
`for i in np.arange(n_row): for j in np.arange(n_col)`
(plot_fun.py lines 36–37): row index outer. -/
def rowMajor : Nat → Nat → List (Nat × Nat)
  | 0, _ => []
  | r + 1, c => rowMajor r c ++ (List.range c).map (fun j => (r, j))

/-- The walk over grid positions with the running feature index `v`
(plot_fun.py lines 35–100): a position with `v >= n_features` is deactivated
and `v` is left unchanged (`continue`); otherwise the cell is rendered and
`v` is incremented. -/
def walkCells (n_features : Nat) (mk : Nat → Nat → Nat → Cell) :
    List (Nat × Nat) → Nat → List (Nat × Nat × Cell)
  | [], _ => []
  | (i, j) :: rest, v =>
    if n_features ≤ v then (i, j, Cell.off) :: walkCells n_features mk rest v
    else (i, j, mk i j v) :: walkCells n_features mk rest (v + 1)

/-- The figure produced by `scatter_plot`: grid shape and figure options from
`plt.subplots(n_row, n_col, figsize=f_size, dpi=80)` (line 33), the walked
cells, and the `subplots_adjust` spacing (lines 103–106). -/
structure Figure where
  n_row : Int
  n_col : Nat
  f_size : ℚ × ℚ
  dpi : Nat
  cells : List (Nat × Nat × Cell)
  hspace : ℚ
  deriving DecidableEq

/-- `scatter_plot` (plot_fun.py lines 5–107), the spec's **PlotGrid**, with
the source's order of computations: the `outcome_col is None` check first
(lines 18–19), then `n_features`, `feature_names` and the feature selection
(lines 21–23), the row count (lines 25–28), the outcome-column selection
(line 30, where an absent outcome column raises `KeyError`), and only then
the figure with its walked cells. -/
def scatter_plot (df : DataFrame) (n_col : Nat := 3)
    (outcome_col : Option String := none) (f_size : ℚ × ℚ := (15, 15)) :
    Except PyError Figure := do
  let oc ← match outcome_col with
    | none => Except.error PyError.valueError
    | some oc => Except.ok oc
  let n_features : Int := (df.shape1 : Int) - 1
  let names := feature_names df oc
  let df_features ← df.locList names
  let n_row ← rowCountCalc n_features n_col
  let outcome_data ← df.loc oc
  Except.ok
    { n_row := n_row, n_col := n_col, f_size := f_size, dpi := 80,
      cells := walkCells n_features.toNat
        (mkCell n_row n_col df_features outcome_data names oc)
        (rowMajor n_row.toNat n_col) 0,
      hspace := if n_col = 1 then 1 else 1/2 }

/-! ### Helper lemmas about column lookup -/

lemma find?_fst_ok (l : List (String × List ℚ)) (c : String)
    (h : c ∈ l.map Prod.fst) :
    ∃ p, l.find? (fun p => p.1 == c) = some p := by
  induction l with
  | nil => simp at h
  | cons a t ih =>
    by_cases hac : a.1 = c
    · exact ⟨a, by simp [List.find?_cons, hac]⟩
    · have ht : c ∈ t.map Prod.fst := by
        rcases List.mem_map.mp h with ⟨q, hq, hqc⟩
        rcases List.mem_cons.mp hq with rfl | hqt
        · exact absurd hqc hac
        · exact List.mem_map.mpr ⟨q, hqt, hqc⟩
      obtain ⟨p, hp⟩ := ih ht
      exact ⟨p, by simpa [List.find?_cons, hac] using hp⟩

lemma find?_fst_none (l : List (String × List ℚ)) (c : String)
    (h : c ∉ l.map Prod.fst) :
    l.find? (fun p => p.1 == c) = none := by
  induction l with
  | nil => rfl
  | cons a t ih =>
    have hac : ¬ a.1 = c := fun hv => h (List.mem_map.mpr ⟨a, List.mem_cons_self a t, hv⟩)
    have ht : c ∉ t.map Prod.fst := fun hv => by
      rcases List.mem_map.mp hv with ⟨q, hq, hqc⟩
      exact h (List.mem_map.mpr ⟨q, List.mem_cons_of_mem a hq, hqc⟩)
    simpa [List.find?_cons, hac] using ih ht

lemma DataFrame.loc_ok_of_mem (df : DataFrame) {c : String}
    (h : c ∈ df.columns) : ∃ ys, df.loc c = Except.ok ys := by
  obtain ⟨p, hp⟩ := find?_fst_ok df.cols c h
  exact ⟨p.2, by simp [DataFrame.loc, hp]⟩

lemma DataFrame.loc_err_of_not_mem (df : DataFrame) {c : String}
    (h : c ∉ df.columns) : df.loc c = Except.error PyError.keyError := by
  simp [DataFrame.loc, find?_fst_none df.cols c h]

lemma DataFrame.locList_ok (df : DataFrame) (l : List String)
    (h : ∀ c ∈ l, c ∈ df.columns) : ∃ ys, df.locList l = Except.ok ys := by
  induction l with
  | nil => exact ⟨[], rfl⟩
  | cons a t ih =>
    obtain ⟨y, hy⟩ := df.loc_ok_of_mem (h a (List.mem_cons_self a t))
    obtain ⟨ys, hys⟩ := ih (fun c hc => h c (List.mem_cons_of_mem a hc))
    exact ⟨y :: ys, by simp [DataFrame.locList, hy, hys, Bind.bind, Except.bind]⟩

lemma feature_names_subset (df : DataFrame) (oc : String) :
    ∀ c ∈ feature_names df oc, c ∈ df.columns := by
  intro c hc
  exact List.mem_of_mem_filter hc

/-! ### Helper lemmas about the row count -/

lemma rowCountCalc_ok (n_features : Int) (n_col : Nat) (h : n_col ≠ 0) :
    ∃ r, rowCountCalc n_features n_col = Except.ok r := by
  unfold rowCountCalc
  rw [if_neg h]
  split <;> exact ⟨_, rfl⟩

lemma rowCountCalc_bounds (n_features : Int) (n_col : Nat) (r : Int)
    (h1 : 1 ≤ n_col) (h2 : 0 ≤ n_features)
    (hr : rowCountCalc n_features n_col = Except.ok r) :
    0 ≤ r ∧ n_features ≤ r * n_col ∧ (r - 1) * n_col < n_features := by
  have hc0 : (n_col : Int) ≠ 0 := by omega
  have hcpos : (0 : Int) < n_col := by omega
  have hkey : (n_col : Int) * Int.ediv n_features n_col + Int.emod n_features n_col = n_features :=
    Int.ediv_add_emod n_features n_col
  have hm0 : 0 ≤ Int.emod n_features n_col := Int.emod_nonneg n_features hc0
  have hml : Int.emod n_features n_col < n_col := Int.emod_lt_of_pos n_features hcpos
  have hq0 : 0 ≤ Int.ediv n_features n_col := Int.ediv_nonneg h2 (le_of_lt hcpos)
  unfold rowCountCalc at hr
  rw [if_neg (by omega)] at hr
  by_cases hmod : Int.emod n_features n_col = 0
  · rw [if_pos hmod, Except.ok.injEq] at hr
    subst hr
    refine ⟨hq0, ?_, ?_⟩
    · have h3 : Int.ediv n_features n_col * n_col = n_col * Int.ediv n_features n_col := by ring
      omega
    · have h3 : (Int.ediv n_features n_col - 1) * n_col =
        n_col * Int.ediv n_features n_col - n_col := by ring
      omega
  · rw [if_neg hmod, Except.ok.injEq] at hr
    subst hr
    refine ⟨by omega, ?_, ?_⟩
    · have h3 : (Int.ediv n_features n_col + 1) * n_col =
        n_col * Int.ediv n_features n_col + n_col := by ring
      omega
    · have h3 : (Int.ediv n_features n_col + 1 - 1) * n_col =
        n_col * Int.ediv n_features n_col := by ring
      omega

/-! ### The success path of `scatter_plot` -/

lemma scatter_plot_ok_eq (df : DataFrame) (n_col : Nat) (oc : String)
    (fs : ℚ × ℚ) (fd : List (List ℚ)) (r : Int) (yd : List ℚ)
    (hfd : df.locList (feature_names df oc) = Except.ok fd)
    (hr : rowCountCalc ((df.shape1 : Int) - 1) n_col = Except.ok r)
    (hyd : df.loc oc = Except.ok yd) :
    scatter_plot df n_col (some oc) fs = Except.ok
      { n_row := r, n_col := n_col, f_size := fs, dpi := 80,
        cells := walkCells ((df.shape1 : Int) - 1).toNat
          (mkCell r n_col fd yd (feature_names df oc) oc)
          (rowMajor r.toNat n_col) 0,
        hspace := if n_col = 1 then 1 else 1/2 } := by
  simp [scatter_plot, hfd, hr, hyd, Bind.bind, Except.bind]

/-! ### Helper lemmas about the grid walk -/

lemma walkCells_positions (n_features : Nat) (mk : Nat → Nat → Nat → Cell) :
    ∀ (pos : List (Nat × Nat)) (v : Nat),
      (walkCells n_features mk pos v).map (fun p => (p.1, p.2.1)) = pos := by
  intro pos
  induction pos with
  | nil => intro v; rfl
  | cons p rest ih =>
    intro v
    obtain ⟨i, j⟩ := p
    by_cases hv : n_features ≤ v
    · simp [walkCells, hv, ih]
    · simp [walkCells, hv, ih]

lemma walkCells_length (n_features : Nat) (mk : Nat → Nat → Nat → Cell)
    (pos : List (Nat × Nat)) (v : Nat) :
    (walkCells n_features mk pos v).length = pos.length := by
  have h := congrArg List.length (walkCells_positions n_features mk pos v)
  simpa using h

lemma walkCells_isRender (n_features : Nat) (mk : Nat → Nat → Nat → Cell)
    (hmk : ∀ i j v, (mk i j v).isRender = true) :
    ∀ (pos : List (Nat × Nat)) (v : Nat), n_features - v ≤ pos.length →
      (walkCells n_features mk pos v).map (fun p => p.2.2.isRender) =
        List.replicate (n_features - v) true ++
        List.replicate (pos.length - (n_features - v)) false := by
  intro pos
  induction pos with
  | nil => intro v h; simp at h; simp [walkCells, h]
  | cons p rest ih =>
    intro v h
    obtain ⟨i, j⟩ := p
    by_cases hv : n_features ≤ v
    · have h0 : n_features - v = 0 := by omega
      have ihr := ih v (by simp at h ⊢; omega)
      simp [walkCells, hv, Cell.isRender, h0, List.replicate_succ] at ihr ⊢
      exact ihr
    · have h1 : n_features - v = (n_features - (v + 1)) + 1 := by omega
      have ihr := ih (v + 1) (by simp at h ⊢; omega)
      simp [walkCells, hv, hmk] at ihr ⊢
      rw [h1, List.replicate_succ]
      have h2 : rest.length - (n_features - (v + 1)) =
          rest.length + 1 - (n_features - v) := by omega
      simp [ihr, h2]

lemma walkCells_mem (n_features : Nat) (mk : Nat → Nat → Nat → Cell) :
    ∀ (pos : List (Nat × Nat)) (v : Nat) (i j : Nat) (c : Cell),
      (i, j, c) ∈ walkCells n_features mk pos v →
      (i, j) ∈ pos ∧ (c = Cell.off ∨ ∃ u, v ≤ u ∧ u < n_features ∧ c = mk i j u) := by
  intro pos
  induction pos with
  | nil => intro v i j c h; simp [walkCells] at h
  | cons p rest ih =>
    intro v i j c h
    obtain ⟨i0, j0⟩ := p
    by_cases hv : n_features ≤ v
    · simp only [walkCells, if_pos hv, List.mem_cons] at h
      rcases h with h | h
      · obtain ⟨rfl, rfl, rfl⟩ := Prod.mk.injEq .. ▸ (by
          simpa using h : i = i0 ∧ j = j0 ∧ c = Cell.off)
        exact ⟨List.mem_cons_self _ _, Or.inl rfl⟩
      · obtain ⟨hp, hc⟩ := ih v i j c h
        exact ⟨List.mem_cons_of_mem _ hp, hc⟩
    · simp only [walkCells, if_neg hv, List.mem_cons] at h
      rcases h with h | h
      · obtain ⟨rfl, rfl, rfl⟩ := Prod.mk.injEq .. ▸ (by
          simpa using h : i = i0 ∧ j = j0 ∧ c = mk i0 j0 v)
        exact ⟨List.mem_cons_self _ _, Or.inr ⟨v, le_refl v, by omega, rfl⟩⟩
      · obtain ⟨hp, hc⟩ := ih (v + 1) i j c h
        refine ⟨List.mem_cons_of_mem _ hp, ?_⟩
        rcases hc with hc | ⟨u, hu1, hu2, hu3⟩
        · exact Or.inl hc
        · exact Or.inr ⟨u, by omega, hu2, hu3⟩

lemma rowMajor_length (R C : Nat) : (rowMajor R C).length = R * C := by
  induction R with
  | zero => simp [rowMajor]
  | succ r ih =>
    simp [rowMajor, ih]
    ring

lemma rowMajor_mem (R C i j : Nat) : (i, j) ∈ rowMajor R C ↔ i < R ∧ j < C := by
  induction R with
  | zero => simp [rowMajor]
  | succ r ih =>
    simp [rowMajor, List.mem_append, List.mem_map, List.mem_range, ih, Prod.mk.injEq]
    omega

/-! ### C5: omitting the outcome column -/

/-- **C5** (confirmed).  For every table and every parameterisation, calling
`scatter_plot` with `outcome_col = none` yields `ValueError` before any other
computation, regardless of table contents. -/
theorem C5_missing_outcome_valueerror (df : DataFrame) (n_col : Nat)
    (f_size : ℚ × ℚ) :
    scatter_plot df n_col none f_size = Except.error PyError.valueError := rfl

/-! ### C6: outcome column absent from the table -/

/-- **C6** (confirmed).  For every call where the supplied outcome-column name
is not among the table's columns, `scatter_plot` fails with an error (the
`KeyError` from `df.loc[:, outcome_col]`, or the `ZeroDivisionError` when
`n_col` is zero, both raised before the figure is created) and produces no
figure. -/
theorem C6_absent_outcome_fails (df : DataFrame) (n_col : Nat) (oc : String)
    (f_size : ℚ × ℚ) (h : oc ∉ df.columns) :
    ∃ e, scatter_plot df n_col (some oc) f_size = Except.error e := by
  obtain ⟨fd, hfd⟩ := df.locList_ok (feature_names df oc) (feature_names_subset df oc)
  by_cases hc : n_col = 0
  · exact ⟨PyError.zeroDivisionError,
      by simp [scatter_plot, hfd, rowCountCalc, hc, Bind.bind, Except.bind]⟩
  · obtain ⟨r, hr⟩ := rowCountCalc_ok ((df.shape1 : Int) - 1) n_col hc
    exact ⟨PyError.keyError,
      by simp [scatter_plot, hfd, hr, df.loc_err_of_not_mem h, Bind.bind, Except.bind]⟩

/-- A concrete three-column table used to instantiate the universally
quantified theorems: features `a`, `b` and outcome `y`. -/
def dfW : DataFrame := ⟨[("a", [1, 2]), ("b", [3, 4]), ("y", [5, 6])]⟩

/-- Witness for C6: the concrete table `dfW` has no column `z`, and the call
fails. -/
theorem C6_absent_outcome_fails_witness :
    ("z" ∉ dfW.columns) ∧
      ∃ e, scatter_plot dfW 3 (some "z") (15, 15) = Except.error e :=
  ⟨by decide, C6_absent_outcome_fails dfW 3 "z" (15, 15) (by decide)⟩

/-! ### C3: the row count is the ceiling of featureCount / columnCount -/

/-- **C3** (confirmed).  For all `n_col ≥ 1` and `n_features ≥ 0`, the
row-count computation of plot_fun.py lines 25–28 equals
`⌈n_features / n_col⌉`. -/
theorem C3_row_count_ceil (n_features : Int) (n_col : Nat) (h1 : 1 ≤ n_col)
    (h2 : 0 ≤ n_features) :
    rowCountCalc n_features n_col =
      Except.ok ⌈(n_features : ℚ) / (n_col : ℚ)⌉ := by
  obtain ⟨r, hr⟩ := rowCountCalc_ok n_features n_col (by omega)
  obtain ⟨hr0, hub, hlb⟩ := rowCountCalc_bounds n_features n_col r h1 h2 hr
  rw [hr]
  congr 1
  symm
  rw [Int.ceil_eq_iff]
  have hcpos : (0 : ℚ) < (n_col : ℚ) := by exact_mod_cast (by omega : 0 < n_col)
  constructor
  · rw [lt_div_iff₀ hcpos]
    have hlb' : ((r : ℚ) - 1) * (n_col : ℚ) < (n_features : ℚ) := by
      exact_mod_cast hlb
    exact hlb'
  · rw [div_le_iff₀ hcpos]
    exact_mod_cast hub

/-- Witness for C3: `featureCount = 7`, `columnCount = 3` gives row count
`⌈7/3⌉ = 3`. -/
theorem C3_row_count_ceil_witness :
    (1 ≤ 3 ∧ (0 : Int) ≤ 7) ∧
      rowCountCalc 7 3 = Except.ok ⌈(7 : ℚ) / (3 : ℚ)⌉ ∧
      rowCountCalc 7 3 = Except.ok 3 :=
  ⟨⟨by decide, by decide⟩, C3_row_count_ceil 7 3 (by decide) (by decide), rfl⟩

/-! ### C2: the grid walk -/

lemma DataFrame.columns_length (df : DataFrame) :
    df.columns.length = df.shape1 := by
  simp [DataFrame.columns, DataFrame.shape1]

lemma DataFrame.shape1_pos {df : DataFrame} {oc : String}
    (h : oc ∈ df.columns) : 1 ≤ df.shape1 := by
  have h1 : 0 < df.columns.length := List.length_pos_of_mem h
  rw [DataFrame.columns_length] at h1
  omega

/-- **C2** (confirmed).  For every valid call (outcome column supplied and
present, `n_col ≥ 1`), the produced figure walks all
`rowCount × columnCount` cells in row-major order (row index outer), the
rendered cells are exactly the first `featureCount` cells of that order, and
exactly the remaining `rowCount × columnCount − featureCount` trailing cells
are deactivated. -/
theorem C2_grid_walk (df : DataFrame) (n_col : Nat) (oc : String)
    (f_size : ℚ × ℚ) (h1 : oc ∈ df.columns) (h2 : 1 ≤ n_col) :
    ∃ fig, scatter_plot df n_col (some oc) f_size = Except.ok fig ∧
      fig.cells.map (fun p => (p.1, p.2.1)) = rowMajor fig.n_row.toNat fig.n_col ∧
      fig.cells.length = fig.n_row.toNat * fig.n_col ∧
      fig.cells.map (fun p => p.2.2.isRender) =
        List.replicate (df.shape1 - 1) true ++
        List.replicate (fig.n_row.toNat * fig.n_col - (df.shape1 - 1)) false := by
  obtain ⟨fd, hfd⟩ := df.locList_ok (feature_names df oc) (feature_names_subset df oc)
  obtain ⟨r, hr⟩ := rowCountCalc_ok ((df.shape1 : Int) - 1) n_col (by omega)
  obtain ⟨yd, hyd⟩ := df.loc_ok_of_mem h1
  have hs1 : 1 ≤ df.shape1 := DataFrame.shape1_pos h1
  have hnf0 : (0 : Int) ≤ (df.shape1 : Int) - 1 := by omega
  obtain ⟨hr0, hub, hlb⟩ := rowCountCalc_bounds ((df.shape1 : Int) - 1) n_col r h2 hnf0 hr
  have htn : ((df.shape1 : Int) - 1).toNat = df.shape1 - 1 := by omega
  have hub' : df.shape1 - 1 ≤ r.toNat * n_col := by
    have hcast : ((r.toNat * n_col : Nat) : Int) = r * (n_col : Int) := by
      push_cast [Int.toNat_of_nonneg hr0]
      ring
    omega
  refine ⟨_, scatter_plot_ok_eq df n_col oc f_size fd r yd hfd hr hyd, ?_, ?_, ?_⟩
  · exact walkCells_positions _ _ _ _
  · simp only [walkCells_length, rowMajor_length]
  · have hlen : (rowMajor r.toNat n_col).length = r.toNat * n_col := rowMajor_length _ _
    have hw := walkCells_isRender ((df.shape1 : Int) - 1).toNat
      (mkCell r n_col fd yd (feature_names df oc) oc)
      (fun _ _ _ => rfl) (rowMajor r.toNat n_col) 0
      (by rw [hlen]; omega)
    simpa [hlen, htn] using hw

/-- Witness for C2: the concrete table `dfW` (features `a`, `b`, outcome `y`)
with `columnCount = 2`. -/
theorem C2_grid_walk_witness :
    ("y" ∈ dfW.columns ∧ 1 ≤ 2) ∧
      ∃ fig, scatter_plot dfW 2 (some "y") (15, 15) = Except.ok fig ∧
        fig.cells.map (fun p => (p.1, p.2.1)) = rowMajor fig.n_row.toNat fig.n_col ∧
        fig.cells.length = fig.n_row.toNat * fig.n_col ∧
        fig.cells.map (fun p => p.2.2.isRender) =
          List.replicate (dfW.shape1 - 1) true ++
          List.replicate (fig.n_row.toNat * fig.n_col - (dfW.shape1 - 1)) false :=
  ⟨⟨by decide, by decide⟩, C2_grid_walk dfW 2 "y" (15, 15) (by decide) (by decide)⟩

/-! ### C1: where the y-axis label is set -/

/-- Boolean form of the claim "the y-label is set exactly on cells whose
column index is 0", evaluated at one walked cell (deactivated cells are
exempt). -/
def ylabelFlag (oc : String) (p : Nat × Nat × Cell) : Bool :=
  match p.2.2 with
  | Cell.off => true
  | Cell.render rr => decide (rr.ylabel = some oc) == decide (p.2.1 = 0)

/-- A concrete table with features `a`, `b` and outcome `y`, plotted with
`columnCount = 1`: a 2×1 grid in which the claim about y-labels fails. -/
def dfC1 : DataFrame := ⟨[("a", [0]), ("b", [0]), ("y", [0])]⟩

/-- The figure `scatter_plot dfC1 1 (some "y")` produces: two rendered cells,
and the second one — row 1, column 0 — carries **no** y-label, because the
`n_col == 1` branch (plot_fun.py line 91) tests `i == 0`, not `j == 0`. -/
def figC1 : Figure :=
  { n_row := 2, n_col := 1, f_size := (15, 15), dpi := 80,
    cells := [
      (0, 0, Cell.render
        { scatter_x := [0], scatter_y := [0], label := "a", alpha := 6/10,
          spine_right_visible := false, spine_top_visible := false,
          tick_length := 5, xlabel := "a", ylabel := some "y" }),
      (1, 0, Cell.render
        { scatter_x := [0], scatter_y := [0], label := "b", alpha := 6/10,
          spine_right_visible := false, spine_top_visible := false,
          tick_length := 5, xlabel := "b", ylabel := none })],
    hspace := 1 }

/-- **C1 counterexample.**  On the 2×1 grid produced from `dfC1` with
`columnCount = 1`, the rendered cell at row 1, column 0 has no y-label, so
the y-label is *not* set on every rendered cell of column 0: the claim as
stated is false. -/
theorem C1_counterexample :
    scatter_plot dfC1 1 (some "y") (15, 15) = Except.ok figC1 ∧
      figC1.cells.all (ylabelFlag "y") = false :=
  ⟨rfl, by decide⟩

/-- **C1 amended** (proved).  For every valid call, a rendered cell at
`(i, j)` carries the y-label iff `j = 0` **and**, in the single-column case,
additionally `i = 0`: with more than one row and exactly one column only the
top cell is labelled, not every cell. -/
theorem C1_ylabel_amended (df : DataFrame) (n_col : Nat) (oc : String)
    (f_size : ℚ × ℚ) (h1 : oc ∈ df.columns) (h2 : 1 ≤ n_col) :
    ∃ fig, scatter_plot df n_col (some oc) f_size = Except.ok fig ∧
      ∀ i j rr, (i, j, Cell.render rr) ∈ fig.cells →
        (rr.ylabel = some oc ↔ (j = 0 ∧ (n_col = 1 → i = 0))) := by
  obtain ⟨fd, hfd⟩ := df.locList_ok (feature_names df oc) (feature_names_subset df oc)
  obtain ⟨r, hr⟩ := rowCountCalc_ok ((df.shape1 : Int) - 1) n_col (by omega)
  obtain ⟨yd, hyd⟩ := df.loc_ok_of_mem h1
  refine ⟨_, scatter_plot_ok_eq df n_col oc f_size fd r yd hfd hr hyd, ?_⟩
  intro i j rr hmem
  obtain ⟨hpos, hc⟩ := walkCells_mem ((df.shape1 : Int) - 1).toNat
    (mkCell r n_col fd yd (feature_names df oc) oc)
    (rowMajor r.toNat n_col) 0 i j (Cell.render rr) hmem
  rcases hc with hoff | ⟨u, _, hu, hcell⟩
  · exact absurd hoff (by simp)
  · obtain ⟨hi, hj⟩ := (rowMajor_mem r.toNat n_col i j).mp hpos
    have hrr : rr = renderCell r n_col i j (fd.getD u []) yd
        ((feature_names df oc).getD u "") oc := by
      simpa [mkCell] using hcell
    subst hrr
    unfold renderCell
    split_ifs with hA hB hC
    · obtain ⟨hA1, hA2⟩ := hA
      have hgoal : j = 0 ∧ (n_col = 1 → i = 0) := by omega
      simp only [renderCell11]
      exact iff_of_true trivial hgoal
    · have hcol : n_col ≠ 1 := fun hc => hA ⟨hB, hc⟩
      simp only [renderCellRow1]
      by_cases hj0 : j = 0
      · rw [if_pos hj0]
        exact iff_of_true rfl ⟨hj0, fun hc => absurd hc hcol⟩
      · rw [if_neg hj0]
        exact iff_of_false (by simp) (fun h => hj0 h.1)
    · simp only [renderCellCol1]
      by_cases hi0 : i = 0
      · rw [if_pos hi0]
        exact iff_of_true rfl ⟨by omega, fun _ => hi0⟩
      · rw [if_neg hi0]
        exact iff_of_false (by simp) (fun h => hi0 (h.2 hC))
    · simp only [renderCellGen]
      by_cases hj0 : j = 0
      · rw [if_pos hj0]
        exact iff_of_true rfl ⟨hj0, fun hc => absurd hc hC⟩
      · rw [if_neg hj0]
        exact iff_of_false (by simp) (fun h => hj0 h.1)

/-- Witness for the amended C1, on the same single-column grid as the
counterexample. -/
theorem C1_ylabel_amended_witness :
    ("y" ∈ dfC1.columns ∧ 1 ≤ 1) ∧
      ∃ fig, scatter_plot dfC1 1 (some "y") (15, 15) = Except.ok fig ∧
        ∀ i j rr, (i, j, Cell.render rr) ∈ fig.cells →
          (rr.ylabel = some "y" ↔ (j = 0 ∧ (1 = 1 → i = 0))) :=
  ⟨⟨by decide, by decide⟩, C1_ylabel_amended dfC1 1 "y" (15, 15) (by decide) (by decide)⟩

/-! ### C10: feature-name indexing stays in bounds -/

lemma length_filter_bne (l : List String) (oc : String) (hnd : l.Nodup)
    (hm : oc ∈ l) :
    (l.filter (fun x => x != oc)).length = l.length - 1 := by
  induction l with
  | nil => simp at hm
  | cons a t ih =>
    obtain ⟨hat, hndt⟩ := List.nodup_cons.mp hnd
    by_cases hao : a = oc
    · subst hao
      have hft : t.filter (fun x => x != a) = t :=
        List.filter_eq_self.mpr (fun x hx => by
          simp only [bne_iff_ne, ne_eq]
          exact fun he => hat (he ▸ hx))
      simp [List.filter_cons, hft]
    · have hmt : oc ∈ t := by
        rcases List.mem_cons.mp hm with h | h
        · exact absurd h.symm hao
        · exact h
      have hna : (a != oc) = true := by
        simp only [bne_iff_ne, ne_eq]
        exact hao
      have hpos : 0 < t.length := List.length_pos_of_mem hmt
      have iht := ih hndt hmt
      simp [List.filter_cons, hna, iht]
      omega

/-- **C10** (confirmed).  For every valid call (outcome present, uniquely
named columns, `n_col ≥ 1`), the feature-name sequence has exactly
`featureCount = shape1 − 1` entries, and every rendered cell of the walk was
built at a feature index `v` strictly below that length — so every access
`feature_names[v]` during the walk is in bounds. -/
theorem C10_index_in_bounds (df : DataFrame) (n_col : Nat) (oc : String)
    (f_size : ℚ × ℚ) (h1 : oc ∈ df.columns) (h2 : 1 ≤ n_col)
    (h3 : df.columns.Nodup) :
    ∃ fd r yd fig,
      df.locList (feature_names df oc) = Except.ok fd ∧
      rowCountCalc ((df.shape1 : Int) - 1) n_col = Except.ok r ∧
      df.loc oc = Except.ok yd ∧
      scatter_plot df n_col (some oc) f_size = Except.ok fig ∧
      (feature_names df oc).length = df.shape1 - 1 ∧
      ∀ p ∈ fig.cells, p.2.2.isRender = true →
        ∃ v, v < (feature_names df oc).length ∧
          p.2.2 = mkCell r n_col fd yd (feature_names df oc) oc p.1 p.2.1 v := by
  obtain ⟨fd, hfd⟩ := df.locList_ok (feature_names df oc) (feature_names_subset df oc)
  obtain ⟨r, hr⟩ := rowCountCalc_ok ((df.shape1 : Int) - 1) n_col (by omega)
  obtain ⟨yd, hyd⟩ := df.loc_ok_of_mem h1
  have hlen : (feature_names df oc).length = df.shape1 - 1 := by
    have hf := length_filter_bne df.columns oc h3 h1
    rw [DataFrame.columns_length] at hf
    exact hf
  refine ⟨fd, r, yd, _, hfd, hr, hyd,
    scatter_plot_ok_eq df n_col oc f_size fd r yd hfd hr hyd, hlen, ?_⟩
  intro p hp hrend
  obtain ⟨i, j, c⟩ := p
  obtain ⟨hpos, hc⟩ := walkCells_mem ((df.shape1 : Int) - 1).toNat
    (mkCell r n_col fd yd (feature_names df oc) oc)
    (rowMajor r.toNat n_col) 0 i j c hp
  rcases hc with hoff | ⟨u, _, hu, hcell⟩
  · rw [hoff] at hrend
    simp [Cell.isRender] at hrend
  · refine ⟨u, ?_, hcell⟩
    have htn : ((df.shape1 : Int) - 1).toNat = df.shape1 - 1 := by omega
    rw [hlen]
    omega

/-- Witness for C10 on the concrete table `dfW` with `columnCount = 2`. -/
theorem C10_index_in_bounds_witness :
    ("y" ∈ dfW.columns ∧ 1 ≤ 2 ∧ dfW.columns.Nodup) ∧
      ∃ fd r yd fig,
        dfW.locList (feature_names dfW "y") = Except.ok fd ∧
        rowCountCalc ((dfW.shape1 : Int) - 1) 2 = Except.ok r ∧
        dfW.loc "y" = Except.ok yd ∧
        scatter_plot dfW 2 (some "y") (15, 15) = Except.ok fig ∧
        (feature_names dfW "y").length = dfW.shape1 - 1 ∧
        ∀ p ∈ fig.cells, p.2.2.isRender = true →
          ∃ v, v < (feature_names dfW "y").length ∧
            p.2.2 = mkCell r 2 fd yd (feature_names dfW "y") "y" p.1 p.2.1 v :=
  ⟨⟨by decide, by decide, by decide⟩,
    C10_index_in_bounds dfW 2 "y" (15, 15) (by decide) (by decide) (by decide)⟩

/-! ### C4: the four grid-shape code paths -/

/-- All per-cell output of a rendered cell except the y-axis label. -/
def CellRender.core (r : CellRender) :
    List ℚ × List ℚ × String × ℚ × Bool × Bool × Nat × String :=
  (r.scatter_x, r.scatter_y, r.label, r.alpha, r.spine_right_visible,
    r.spine_top_visible, r.tick_length, r.xlabel)

/-- **C4 counterexample.**  At grid position (row 1, column 0) the
single-column code path and the general code path do **not** produce the same
cell: the single-column branch tests the row index (`i == 0`,
plot_fun.py line 91) where the general branch tests the column index
(`j == 0`, line 97), so their y-labels differ. -/
theorem C4_counterexample :
    renderCellCol1 1 [0] [0] "a" "y" ≠ renderCellGen 0 [0] [0] "a" "y" := by
  intro h
  have hy := congrArg CellRender.ylabel h
  simp [renderCellCol1, renderCellGen] at hy

/-- **C4 amended** (proved).  The four grid-shape code paths agree on all
per-cell output — scatter data, alpha, spine hiding, tick marks, x-label —
and the 1×1 path, the single-row path and (at row 0) the single-column path
also place the y-label exactly as the general path does; the only semantic
difference is the single-column path's y-label at rows other than 0, which
it omits while the general rule (column index 0) would set it. -/
theorem C4_paths_amended (i j : Nat) (x y : List ℚ) (lab oc : String) :
    renderCellRow1 j x y lab oc = renderCellGen j x y lab oc ∧
    renderCell11 x y lab oc = renderCellGen 0 x y lab oc ∧
    renderCellCol1 0 x y lab oc = renderCellGen 0 x y lab oc ∧
    (renderCellCol1 i x y lab oc).core = (renderCellGen j x y lab oc).core :=
  ⟨rfl, by simp [renderCell11, renderCellGen], by simp [renderCellCol1, renderCellGen],
    rfl⟩

/-! ### The training side: `train_test` (training_fun.py) -/

/-- The constructor arguments of `RandomForestRegressor`
(training_fun.py lines 12–15): tree count, max depth, max features per
split, and the random seed — fixed to `1234` by `train_test`, not an
input. -/
structure RFParams where
  n_estimators : Nat
  max_depth : Nat
  max_features : Nat
  random_state : Nat
  deriving DecidableEq

/-- `sklearn.metrics.mean_squared_error`: the mean of squared differences
between true and predicted values. -/
def mean_squared_error (y_true y_pred : List ℚ) : ℚ :=
  ((y_true.zip y_pred).map (fun p => (p.1 - p.2) ^ 2)).sum / (y_true.length : ℚ)

lemma mean_squared_error_nonneg (y_true y_pred : List ℚ) :
    0 ≤ mean_squared_error y_true y_pred := by
  unfold mean_squared_error
  apply div_nonneg
  · apply List.sum_nonneg
    intro x hx
    obtain ⟨p, _, rfl⟩ := List.mem_map.mp hx
    positivity
  · positivity

/-- The parts of sklearn / Python whose code is outside this repository,
abstracted as functions: model construction from its parameters, fitting,
prediction, and the `"{}".format` rendering of a float.  Modelling them as
functions of their arguments expresses that, the seed being part of
`RFParams`, the library's behaviour is determined by its inputs; every
theorem below holds for **any** such library. -/
structure SklearnLib (Model : Type) where
  randomForestRegressor : RFParams → Model
  fit : Model → List (List ℚ) → List ℚ → Model
  predict : Model → List (List ℚ) → List ℚ
  format : ℝ → String

/-- training_fun.py lines 12–17: the model constructed with the caller's
hyperparameters and the fixed seed `1234`, fitted on the training data. -/
def fitted_model {Model : Type} (lib : SklearnLib Model)
    (features_train : List (List ℚ)) (outcome_train : List ℚ)
    (n_trees n_features max_depth : Nat) : Model :=
  lib.fit
    (lib.randomForestRegressor
      { n_estimators := n_trees, max_depth := max_depth,
        max_features := n_features, random_state := 1234 })
    features_train outcome_train

/-- training_fun.py lines 18 and 21: `rmse_train`, i.e.
`mean_squared_error(outcome_train, model.predict(features_train)) ** 0.5`. -/
noncomputable def rmse_train_calc {Model : Type} (lib : SklearnLib Model)
    (features_train : List (List ℚ)) (outcome_train : List ℚ)
    (n_trees n_features max_depth : Nat) : ℝ :=
  ((mean_squared_error outcome_train
      (lib.predict (fitted_model lib features_train outcome_train
        n_trees n_features max_depth) features_train) : ℚ) : ℝ) ^ (0.5 : ℝ)

/-- training_fun.py lines 19 and 22: `rmse_test`, i.e.
`mean_squared_error(outcome_test, model.predict(features_test)) ** 0.5`,
with the model fitted on the training data. -/
noncomputable def rmse_test_calc {Model : Type} (lib : SklearnLib Model)
    (features_train : List (List ℚ)) (outcome_train : List ℚ)
    (features_test : List (List ℚ)) (outcome_test : List ℚ)
    (n_trees n_features max_depth : Nat) : ℝ :=
  ((mean_squared_error outcome_test
      (lib.predict (fitted_model lib features_train outcome_train
        n_trees n_features max_depth) features_test) : ℚ) : ℝ) ^ (0.5 : ℝ)

/-- `train_test` (training_fun.py lines 7–27), the spec's **TrainEvaluate**:
the pair of its two printed stdout lines (lines 24–25), in order, and its
return value — the bare `return`, i.e. `Unit`. -/
noncomputable def train_test {Model : Type} (lib : SklearnLib Model)
    (features_train : List (List ℚ)) (outcome_train : List ℚ)
    (features_test : List (List ℚ)) (outcome_test : List ℚ)
    (n_trees : Nat := 100) (n_features : Nat := 3) (max_depth : Nat := 6) :
    List String × Unit :=
  (["rmse train: " ++ lib.format (rmse_train_calc lib features_train
      outcome_train n_trees n_features max_depth),
    "rmse test: " ++ lib.format (rmse_test_calc lib features_train
      outcome_train features_test outcome_test n_trees n_features max_depth)],
   ())

/-! ### C7: determinism of `train_test` -/

/-- **C7** (confirmed).  Two calls of `train_test` against the same library
with equal data and equal hyperparameters produce identical train RMSE,
identical test RMSE, and identical printed output: the seed is the fixed
constant `1234` baked into `fitted_model`, not an input, so the output is a
function of exactly the listed arguments. -/
theorem C7_deterministic {Model : Type} (lib : SklearnLib Model)
    (ftr1 ftr2 fte1 fte2 : List (List ℚ)) (otr1 otr2 ote1 ote2 : List ℚ)
    (nt1 nt2 nf1 nf2 md1 md2 : Nat)
    (h1 : ftr1 = ftr2) (h2 : otr1 = otr2) (h3 : fte1 = fte2)
    (h4 : ote1 = ote2) (h5 : nt1 = nt2) (h6 : nf1 = nf2) (h7 : md1 = md2) :
    rmse_train_calc lib ftr1 otr1 nt1 nf1 md1 =
      rmse_train_calc lib ftr2 otr2 nt2 nf2 md2 ∧
    rmse_test_calc lib ftr1 otr1 fte1 ote1 nt1 nf1 md1 =
      rmse_test_calc lib ftr2 otr2 fte2 ote2 nt2 nf2 md2 ∧
    train_test lib ftr1 otr1 fte1 ote1 nt1 nf1 md1 =
      train_test lib ftr2 otr2 fte2 ote2 nt2 nf2 md2 := by
  subst h1 h2 h3 h4 h5 h6 h7
  exact ⟨rfl, rfl, rfl⟩

/-- A concrete trivial instantiation of the abstract sklearn library, used
only to instantiate universally quantified theorems. -/
def trivialLib : SklearnLib Unit :=
  { randomForestRegressor := fun _ => (), fit := fun m _ _ => m,
    predict := fun _ _ => [], format := fun _ => "" }

/-- Witness for C7 at concrete inputs. -/
theorem C7_deterministic_witness :
    ([[1]] = [[1]] ∧ [2] = [2] ∧ [[3]] = [[3]] ∧ [4] = [4] ∧
      100 = 100 ∧ 3 = 3 ∧ 6 = 6) ∧
      (rmse_train_calc trivialLib [[1]] [2] 100 3 6 =
        rmse_train_calc trivialLib [[1]] [2] 100 3 6 ∧
      rmse_test_calc trivialLib [[1]] [2] [[3]] [4] 100 3 6 =
        rmse_test_calc trivialLib [[1]] [2] [[3]] [4] 100 3 6 ∧
      train_test trivialLib [[1]] [2] [[3]] [4] 100 3 6 =
        train_test trivialLib [[1]] [2] [[3]] [4] 100 3 6) :=
  ⟨⟨rfl, rfl, rfl, rfl, rfl, rfl, rfl⟩,
    C7_deterministic trivialLib [[1]] [[1]] [[3]] [[3]] [2] [2] [4] [4]
      100 100 3 3 6 6 rfl rfl rfl rfl rfl rfl rfl⟩

/-! ### C8: equal splits give equal RMSE -/

/-- **C8** (confirmed).  When the test features equal the training features
and the test outcomes equal the training outcomes, the computed test RMSE
equals the computed train RMSE: the same fitted model is applied to the same
prediction inputs and compared against the same true outcomes. -/
theorem C8_train_eq_test_rmse {Model : Type} (lib : SklearnLib Model)
    (features_train : List (List ℚ)) (outcome_train : List ℚ)
    (features_test : List (List ℚ)) (outcome_test : List ℚ)
    (n_trees n_features max_depth : Nat)
    (h1 : features_test = features_train) (h2 : outcome_test = outcome_train) :
    rmse_test_calc lib features_train outcome_train features_test outcome_test
        n_trees n_features max_depth =
      rmse_train_calc lib features_train outcome_train
        n_trees n_features max_depth := by
  subst h1 h2
  rfl

/-- Witness for C8 at concrete inputs. -/
theorem C8_train_eq_test_rmse_witness :
    ([[1], [2]] = [[1], [2]] ∧ [3, 4] = [3, 4]) ∧
      rmse_test_calc trivialLib [[1], [2]] [3, 4] [[1], [2]] [3, 4] 100 3 6 =
        rmse_train_calc trivialLib [[1], [2]] [3, 4] 100 3 6 :=
  ⟨⟨rfl, rfl⟩,
    C8_train_eq_test_rmse trivialLib [[1], [2]] [3, 4] [[1], [2]] [3, 4]
      100 3 6 rfl rfl⟩

/-! ### C9: the printed output -/

/-- **C9** (confirmed).  Every call of `train_test` writes exactly two lines,
in order `"rmse train: {value}"` then `"rmse test: {value}"`, where each
value is the square root of the mean squared error between the fitted
model's predictions on that split and the split's true outcome vector
(`** 0.5` on a non-negative MSE is the square root), and returns no value. -/
theorem C9_output_lines {Model : Type} (lib : SklearnLib Model)
    (features_train : List (List ℚ)) (outcome_train : List ℚ)
    (features_test : List (List ℚ)) (outcome_test : List ℚ)
    (n_trees n_features max_depth : Nat) :
    train_test lib features_train outcome_train features_test outcome_test
        n_trees n_features max_depth =
      (["rmse train: " ++ lib.format (Real.sqrt ((mean_squared_error
          outcome_train (lib.predict (fitted_model lib features_train
            outcome_train n_trees n_features max_depth) features_train) : ℚ) : ℝ)),
        "rmse test: " ++ lib.format (Real.sqrt ((mean_squared_error
          outcome_test (lib.predict (fitted_model lib features_train
            outcome_train n_trees n_features max_depth) features_test) : ℚ) : ℝ))],
       ()) := by
  simp only [train_test, rmse_train_calc, rmse_test_calc, Real.sqrt_eq_rpow]
  norm_num

end GradnetConcrete
